import Mathlib

/-!
Verification of `scripts/generate-xri.py`: the generator that turns a list
of GitHub release records into a PixInsight repository index document
(`docs/updates.xri`).

The Python source is embedded shallowly:
* Python strings are Lean `String`s; the Python string primitives the script
  uses (`replace`, slicing, `endswith`, `lstrip`, `len`) are modelled as
  functions over the underlying `List Char` (Python `len` and slicing count
  code points, as `List Char` does).
* The network is abstracted: the release list is an explicit input, and the
  per-asset SHA-1 download (`calculate_sha1_from_url`) is an oracle
  `digest : String → Option String` mapping a download URL to `some hash`
  on success and `none` on any download failure (the function catches every
  exception and returns `None`).
* `datetime.fromisoformat` + `strftime` are modelled by `pyFromIso` and
  `fmtYmd` below.
* Raised exceptions / aborts are modelled by `Except String`; the script
  writes the output file only after the whole loop succeeds, so
  `writtenFile` is `some doc` exactly when no exception was raised.
-/

/-- Non-overlapping left-to-right replacement on char lists, as Python
`str.replace` does. Fuel-driven structural recursion so that concrete
evaluations reduce definitionally; the fuel is set to the list length by
`pyReplace`, which is enough for any non-empty pattern. -/
def pyReplaceFuel (pat repl : List Char) : Nat → List Char → List Char
  | _, [] => []
  | 0, l => l
  | Nat.succ fuel, c :: rest =>
    if pat.isPrefixOf (c :: rest) then
      repl ++ pyReplaceFuel pat repl fuel (List.drop pat.length (c :: rest))
    else
      c :: pyReplaceFuel pat repl fuel rest

/-- Python `s.replace(pat, repl)` for a non-empty pattern. -/
def pyReplace (s pat repl : String) : String :=
  String.mk (pyReplaceFuel pat.data repl.data s.data.length s.data)

/-- Python `s[:n]` (slicing counts code points). -/
def pyTake (s : String) (n : Nat) : String :=
  String.mk (s.data.take n)

/-- Python `s.endswith(suffix)`: case-sensitive suffix match. -/
def pyEndsWith (s suf : String) : Bool :=
  suf.data.isSuffixOf s.data

/-- Python `len(s)`: the number of code points. -/
def pyLen (s : String) : Nat :=
  s.data.length

/-- Python `tag_name.lstrip('v')` (line 84 of the script): strips EVERY
leading `v` character, not just one. The script computes this value for each
retained release; variant A never embeds it in the output document. -/
def deriveVersion (tag : String) : String :=
  String.mk (tag.data.dropWhile (fun c => c == 'v'))

/-- The numeric value of a digit string. -/
def digitsToNat (cs : List Char) : Nat :=
  cs.foldl (fun n c => 10 * n + (c.toNat - 48)) 0

/-- Gregorian leap-year rule, as `datetime` uses. -/
def isLeapYear (y : Nat) : Bool :=
  (y % 4 == 0 && y % 100 != 0) || (y % 400 == 0)

/-- Number of days in a month, as `datetime` validates. -/
def daysInMonth (y m : Nat) : Nat :=
  if m == 2 then (if isLeapYear y then 29 else 28)
  else if m == 4 || m == 6 || m == 9 || m == 11 then 30
  else 31

/-- Syntactic validity of a `±HH:MM` UTC offset (or no offset at all). -/
def validOffset : List Char → Bool
  | [] => true
  | sign :: h1 :: h2 :: ':' :: m1 :: m2 :: [] =>
    (sign == '+' || sign == '-') && [h1, h2, m1, m2].all Char.isDigit &&
      digitsToNat [h1, h2] < 24 && digitsToNat [m1, m2] < 60
  | _ => false

/-- Syntactic validity of an ISO time part `HH:MM[:SS]` followed by an
optional offset. -/
def validTime : List Char → Bool
  | h1 :: h2 :: ':' :: m1 :: m2 :: rest =>
    [h1, h2, m1, m2].all Char.isDigit &&
      digitsToNat [h1, h2] < 24 && digitsToNat [m1, m2] < 60 &&
      (match rest with
       | ':' :: s1 :: s2 :: rest2 =>
         [s1, s2].all Char.isDigit && digitsToNat [s1, s2] < 60 &&
           validOffset rest2
       | other => validOffset other)
  | _ => false

/-- Models Python's `datetime.fromisoformat` on the timestamp shapes the
release API emits (restricted to the common subset accepted by every
supported Python version): `YYYY-MM-DD`, optionally followed by a `T` or
space separator, a `HH:MM[:SS]` time and a `±HH:MM` offset. Returns the
calendar date `(year, month, day)` on success and `none` (a raised
`ValueError`) on anything malformed, including out-of-range months or days. -/
def pyFromIso (s : String) : Option (Nat × Nat × Nat) :=
  match s.data with
  | y1 :: y2 :: y3 :: y4 :: '-' :: mo1 :: mo2 :: '-' :: d1 :: d2 :: rest =>
    if [y1, y2, y3, y4, mo1, mo2, d1, d2].all Char.isDigit then
      let y := digitsToNat [y1, y2, y3, y4]
      let m := digitsToNat [mo1, mo2]
      let d := digitsToNat [d1, d2]
      if 1 ≤ m ∧ m ≤ 12 ∧ 1 ≤ d ∧ d ≤ daysInMonth y m then
        match rest with
        | [] => some (y, m, d)
        | sep :: timePart =>
          if (sep == 'T' || sep == ' ') && validTime timePart then
            some (y, m, d)
          else none
      else none
    else none
  | _ => none

/-- Two-digit zero-padded decimal rendering (for `%m`, `%d`). -/
def pad2 (n : Nat) : String :=
  String.mk [Char.ofNat (48 + n / 10 % 10), Char.ofNat (48 + n % 10)]

/-- Four-digit zero-padded decimal rendering (for `%Y`). -/
def pad4 (n : Nat) : String :=
  String.mk [Char.ofNat (48 + n / 1000 % 10), Char.ofNat (48 + n / 100 % 10),
             Char.ofNat (48 + n / 10 % 10), Char.ofNat (48 + n % 10)]

/-- `strftime('%Y%m%d')` applied to a parsed calendar date (line 89). -/
def fmtYmd : Nat × Nat × Nat → String
  | (y, m, d) => pad4 y ++ pad2 m ++ pad2 d

/-- A release asset, as returned by the releases API (`name`,
`browser_download_url`; the script reads no other asset field). -/
structure Asset where
  name : String
  browser_download_url : String
deriving DecidableEq, Repr

/-- A release record, as returned by the releases API. `body` models
`release.get('body')`, with the empty string standing for an absent/empty
body (both are falsy in Python). -/
structure Release where
  tag_name : String
  draft : Bool
  prerelease : Bool
  published_at : String
  body : String
  assets : List Asset
deriving DecidableEq, Repr

/-- One `<package>` element of the output tree (lines 108-142): its
attributes (`fileName`, `type`, `releaseDate`, optional `sha1`) and its
child text nodes (`<title>`, the fixed description paragraph, the optional
release-notes paragraph, and the download-link paragraph). -/
structure Package where
  fileName : String
  type : String
  releaseDate : String
  sha1 : Option String
  title : String
  mainDescription : String
  releaseNotes : Option String
  downloadLink : String
deriving DecidableEq, Repr

/-- The output document tree (lines 57-71): the `<xri version="1.0">` root
with its empty `<script/>` child, the repository description paragraph, and
the `<platform>` element's attributes and `<package>` children. -/
structure XriDoc where
  xriVersion : String
  hasScript : Bool
  repoDescription : String
  platformOs : String
  platformArch : String
  platformVersion : String
  packages : List Package
deriving DecidableEq, Repr

/-- Line 135: collapse line breaks, `replace('\r\n', ' ').replace('\n', ' ')`. -/
def collapseNewlines (s : String) : String :=
  pyReplace (pyReplace s "\r\n" " ") "\n" " "

/-- Lines 135-137: the release-notes text — the body with line breaks
collapsed, truncated to `[:297] + '...'` when its length exceeds 300. -/
def notes_text (body : String) : String :=
  let t := collapseNewlines body
  if 300 < pyLen t then pyTake t 297 ++ "..." else t

/-- Lines 105-142: build one `<package>` element for a zip asset of a
retained release. `digest` is the outcome of `calculate_sha1_from_url`; the
`sha1` attribute is added only when that value is truthy (line 115). -/
def mkPackage (repoName : String) (digest : String → Option String)
    (releaseDate : String) (body : String) (a : Asset) : Package :=
  let sha1v : Option String :=
    match digest a.browser_download_url with
    | some h => if h.data.isEmpty then none else some h
    | none => none
  { fileName := a.name
    type := "script"
    releaseDate := releaseDate
    sha1 := sha1v
    title := " " ++ repoName ++ " "
    mainDescription := " Install or update " ++ repoName ++ " in PixInsight. "
    releaseNotes :=
      if body.data.isEmpty then none
      else some (" " ++ notes_text body ++ " ")
    downloadLink := " " ++ a.browser_download_url ++ " " }

/-- Lines 94-144: the inner asset loop — skip assets whose filename does not
end in `.zip`, emit a package element for each one that does. -/
def processAssets (repoName : String) (digest : String → Option String)
    (releaseDate body : String) : List Asset → List Package
  | [] => []
  | a :: rest =>
    if pyEndsWith a.name ".zip" then
      mkPackage repoName digest releaseDate body a ::
        processAssets repoName digest releaseDate body rest
    else
      processAssets repoName digest releaseDate body rest

/-- Lines 77-144: the outer release loop — skip drafts and prereleases,
parse and reformat the publish timestamp (aborting the whole run on a parse
failure, as the uncaught `ValueError` does), then process the assets. -/
def processReleases (repoName : String) (digest : String → Option String) :
    List Release → Except String (List Package)
  | [] => .ok []
  | r :: rest =>
    if r.draft || r.prerelease then
      processReleases repoName digest rest
    else
      match pyFromIso (pyReplace r.published_at "Z" "+00:00") with
      | none => .error ("Invalid isoformat string: " ++ r.published_at)
      | some ymd =>
        match processReleases repoName digest rest with
        | .error e => .error e
        | .ok ps =>
          .ok (processAssets repoName digest (fmtYmd ymd) r.body r.assets ++ ps)

/-- The fixed document header (lines 57-71) wrapped around a package list. -/
def mkDoc (repoName : String) (ps : List Package) : XriDoc :=
  { xriVersion := "1.0"
    hasScript := true
    repoDescription :=
      " " ++ repoName ++
        " — Automated Narrowband Astrophotography Workflow Based on PixInsight Processing Scripts. "
    platformOs := "all"
    platformArch := "noarch"
    platformVersion := "1.8.0:1.8.99"
    packages := ps }

/-- `generate_xri` (lines 53-167): build the header, run the release loop,
and return the finished document — or the first raised error, in which case
nothing is written. -/
def generate_xri (repoName : String) (digest : String → Option String)
    (releases : List Release) : Except String XriDoc :=
  Except.map (mkDoc repoName) (processReleases repoName digest releases)

/-- The content of `docs/updates.xri` after a run: the script only reaches
the file write (line 166) when no exception was raised, and `__main__`
catches any exception and exits non-zero without writing. -/
def writtenFile (repoName : String) (digest : String → Option String)
    (releases : List Release) : Option XriDoc :=
  (generate_xri repoName digest releases).toOption

/-- Lines 83-144, the body of one release-loop iteration for a retained
release: the packages that release contributes — entries for its `.zip`
assets, every one dated with THAT release's parsed publish timestamp
(`release_date` is computed once per release, before the asset loop, and
passed to every entry of the release). The `none` arm is never reached in
the theorems below, which assume the timestamp parses; on a parse failure
the loop raises instead of contributing packages. -/
def releasePackages (repoName : String) (digest : String → Option String)
    (r : Release) : List Package :=
  match pyFromIso (pyReplace r.published_at "Z" "+00:00") with
  | none => []
  | some ymd => processAssets repoName digest (fmtYmd ymd) r.body r.assets

/-- The version derivation as the spec words it: a SINGLE leading literal
`v` character stripped if present, the tag unchanged otherwise. Stated for
comparison with `deriveVersion`, which embeds the code's `lstrip('v')`. -/
def stripSingleLeadingV (tag : String) : String :=
  if tag.data.head? = some 'v' then String.mk tag.data.tail else tag

/-- The release-notes derivation as the claim words it: line breaks
collapsed, truncated at 1000 characters with a `...` suffix when longer.
Stated for comparison with the code's `notes_text`. -/
def specReleaseNotes1000 (body : String) : String :=
  let t := collapseNewlines body
  if 1000 < pyLen t then pyTake t 997 ++ "..." else t

/-- Forget the `sha1` attribute of a package entry. -/
def eraseSha1 (p : Package) : Package :=
  { p with sha1 := none }

/-- Forget every `sha1` attribute of a document. -/
def eraseDoc (doc : XriDoc) : XriDoc :=
  { doc with packages := doc.packages.map eraseSha1 }

/-- The end-to-end input of the spec's test property: one published release
tagged `v1.0.0` with a single asset `Workflow-v1.0.0.zip`. -/
def c8Releases : List Release :=
  [⟨"v1.0.0", false, false, "2024-01-01T00:00:00Z", "",
    [⟨"Workflow-v1.0.0.zip", "https://x/Workflow-v1.0.0.zip"⟩]⟩]

/-- The single package entry the generator emits for `c8Releases` (digest
download failing, so no `sha1`). -/
def c8Package : Package :=
  { fileName := "Workflow-v1.0.0.zip"
    type := "script"
    releaseDate := "20240101"
    sha1 := none
    title := " ANAWBPPS "
    mainDescription := " Install or update ANAWBPPS in PixInsight. "
    releaseNotes := none
    downloadLink := " https://x/Workflow-v1.0.0.zip " }

/-! ### Helper lemmas -/

/-- The asset loop is the `.zip` filter followed by package construction. -/
theorem processAssets_eq_filter_map (n : String) (d : String → Option String)
    (rd b : String) (l : List Asset) :
    processAssets n d rd b l =
      (l.filter (fun a => pyEndsWith a.name ".zip")).map (mkPackage n d rd b) := by
  induction l with
  | nil => rfl
  | cons a rest ih =>
    by_cases h : pyEndsWith a.name ".zip" = true
    · simp [processAssets, List.filter, h, ih]
    · simp [processAssets, List.filter, h, ih]

/-- The release loop ignores drafts and prereleases: it computes the same
result on the filtered subsequence. -/
theorem processReleases_eq_on_filter (n : String) (d : String → Option String)
    (rs : List Release) :
    processReleases n d rs =
      processReleases n d
        (rs.filter (fun r => !r.draft && !r.prerelease)) := by
  induction rs with
  | nil => rfl
  | cons r rest ih =>
    by_cases h : (r.draft || r.prerelease) = true
    · have hf : (!r.draft && !r.prerelease) = false := by
        cases hd : r.draft <;> cases hp : r.prerelease <;>
          simp_all
      simp [processReleases, h, List.filter, hf, ih]
    · have hf : (!r.draft && !r.prerelease) = true := by
        cases hd : r.draft <;> cases hp : r.prerelease <;>
          simp_all
      simp only [processReleases, h, List.filter, hf, if_false]
      rw [ih]

/-! ### C1: draft/prerelease filtering -/

/-- C1. No package entry is emitted for any asset of a draft or prerelease
release: the generator computes the same document on the subsequence of
releases with both flags false (in their original order), and every draft or
prerelease release is absent from that subsequence. -/
theorem generate_xri_filters_draft_prerelease
    (n : String) (d : String → Option String) (rs : List Release) :
    generate_xri n d rs =
      generate_xri n d (rs.filter (fun r => !r.draft && !r.prerelease)) ∧
    ∀ r ∈ rs.filter (fun r => !r.draft && !r.prerelease),
      r.draft = false ∧ r.prerelease = false := by
  constructor
  · unfold generate_xri
    rw [← processReleases_eq_on_filter]
  · intro r hr
    have := List.of_mem_filter hr
    constructor
    · cases h : r.draft
      · rfl
      · simp [h] at this
    · cases h : r.prerelease
      · rfl
      · simp [h] at this

/-- Witness for C1 at a concrete two-release list: a draft release
contributes nothing, and the document equals the one computed from the
filtered list. -/
theorem generate_xri_filters_draft_prerelease_witness :
    generate_xri "ANAWBPPS" (fun _ => none)
        [⟨"v0.9.0", true, false, "2024-01-01T00:00:00Z", "", []⟩,
         ⟨"v1.0.0", false, false, "2024-01-02T00:00:00Z", "", []⟩] =
      generate_xri "ANAWBPPS" (fun _ => none)
        [⟨"v1.0.0", false, false, "2024-01-02T00:00:00Z", "", []⟩] := by
  have h := generate_xri_filters_draft_prerelease "ANAWBPPS" (fun _ => none)
    [⟨"v0.9.0", true, false, "2024-01-01T00:00:00Z", "", []⟩,
     ⟨"v1.0.0", false, false, "2024-01-02T00:00:00Z", "", []⟩]
  have h1 := h.1
  rw [h1]
  rfl

/-! ### C2: the `.zip` asset filter -/

/-- C2. Within a retained release, a package entry is emitted for an asset
iff its filename ends with the case-sensitive suffix `.zip`: the asset loop
equals the `.zip` filter followed by entry construction (so non-matching
assets contribute nothing), every emitted entry's `fileName` ends in `.zip`,
and the entry built for an asset carries that asset's filename. -/
theorem processAssets_zip_filter
    (n : String) (d : String → Option String) (rd b : String)
    (l : List Asset) :
    processAssets n d rd b l =
      (l.filter (fun a => pyEndsWith a.name ".zip")).map (mkPackage n d rd b) ∧
    (∀ p ∈ processAssets n d rd b l, pyEndsWith p.fileName ".zip" = true) ∧
    (∀ a : Asset, (mkPackage n d rd b a).fileName = a.name) := by
  refine ⟨processAssets_eq_filter_map n d rd b l, ?_, fun a => rfl⟩
  intro p hp
  rw [processAssets_eq_filter_map] at hp
  obtain ⟨a, ha, rfl⟩ := List.mem_map.mp hp
  have hz := List.of_mem_filter ha
  exact hz

/-- Witness for C2 at a concrete asset list: the `.txt` asset is dropped,
the `.zip` asset is kept, and its entry ends in `.zip`. -/
theorem processAssets_zip_filter_witness :
    processAssets "ANAWBPPS" (fun _ => none) "20240101" ""
        [⟨"Workflow-v1.0.0.zip", "u1"⟩, ⟨"README.txt", "u2"⟩] =
      [mkPackage "ANAWBPPS" (fun _ => none) "20240101" ""
        ⟨"Workflow-v1.0.0.zip", "u1"⟩] ∧
    pyEndsWith
      (mkPackage "ANAWBPPS" (fun _ => none) "20240101" ""
        ⟨"Workflow-v1.0.0.zip", "u1"⟩).fileName ".zip" = true := by
  have h := processAssets_zip_filter "ANAWBPPS" (fun _ => none) "20240101" ""
    [⟨"Workflow-v1.0.0.zip", "u1"⟩, ⟨"README.txt", "u2"⟩]
  refine ⟨?_, ?_⟩
  · rw [h.1]
    rfl
  · apply h.2.1
    rw [h.1]
    decide

/-! ### C3: version derivation -/

/-- The head of `dropWhile p l` never satisfies `p`. -/
theorem head_dropWhile_false {p : Char → Bool} :
    ∀ (l : List Char) (c : Char),
      (l.dropWhile p).head? = some c → p c = false := by
  intro l
  induction l with
  | nil => intro c h; simp [List.dropWhile] at h
  | cons a rest ih =>
    intro c h
    by_cases hp : p a = true
    · rw [List.dropWhile_cons_of_pos hp] at h
      exact ih c h
    · rw [List.dropWhile_cons_of_neg hp] at h
      simp at h
      subst h
      exact Bool.eq_false_iff.mpr hp

/-- Stripping a single leading `v` from a string that starts with `v`. -/
theorem stripSingle_cons_v (t : List Char) :
    stripSingleLeadingV (String.mk ('v' :: t)) = String.mk t := by
  have h : (String.mk ('v' :: t)).data.head? = some 'v' := rfl
  simp only [stripSingleLeadingV]
  rw [if_pos h]
  rfl

/-- Stripping a single leading `v` from a string that starts elsewhere. -/
theorem stripSingle_cons_ne (c : Char) (t : List Char) (hc : c ≠ 'v') :
    stripSingleLeadingV (String.mk (c :: t)) = String.mk (c :: t) := by
  have h : ¬ (String.mk (c :: t)).data.head? = some 'v' := by simp [hc]
  simp only [stripSingleLeadingV]
  rw [if_neg h]

/-- Unfolding of `deriveVersion` on the underlying character list. -/
theorem deriveVersion_mk (l : List Char) :
    deriveVersion (String.mk l) = String.mk (l.dropWhile (fun c => c == 'v')) :=
  rfl

/-- C3 counterexample: on the tag `vv1`, the code's `lstrip('v')` strips
both leading `v`s and yields `1`, while a single-`v` strip yields `v1`. -/
theorem deriveVersion_counterexample :
    deriveVersion "vv1" = "1" ∧ stripSingleLeadingV "vv1" = "v1" ∧
      deriveVersion "vv1" ≠ stripSingleLeadingV "vv1" := by
  have hs : stripSingleLeadingV "vv1" = "v1" := by
    have : ("vv1" : String) = String.mk ['v', 'v', '1'] := rfl
    rw [this, stripSingle_cons_v]
  refine ⟨by decide, hs, ?_⟩
  rw [hs]
  decide

/-- C3 (amended). The derived version is the tag with ALL leading `v`
characters stripped; this agrees with stripping a single leading `v` exactly
when the tag does not begin with `vv`. In particular `v2.3.1` yields
`2.3.1`, `2.3.1` is unchanged, and `v` alone yields the empty string. -/
theorem deriveVersion_lstrip_all
    (tag : String) :
    (deriveVersion tag = stripSingleLeadingV tag ↔
      "vv".data.isPrefixOf tag.data = false) ∧
    deriveVersion "v2.3.1" = "2.3.1" ∧
    deriveVersion "2.3.1" = "2.3.1" ∧
    deriveVersion "v" = "" := by
  refine ⟨?_, by decide, by decide, by decide⟩
  obtain ⟨l⟩ := tag
  match l with
  | [] =>
    exact ⟨fun _ => rfl, fun _ => rfl⟩
  | c :: t =>
    by_cases hc : c = 'v'
    · subst hc
      match t with
      | [] =>
        constructor
        · intro _; rfl
        · intro _
          rw [deriveVersion_mk, stripSingle_cons_v]
          rfl
      | c2 :: t2 =>
        by_cases hc2 : c2 = 'v'
        · subst hc2
          constructor
          · intro heq
            exfalso
            rw [deriveVersion_mk, stripSingle_cons_v] at heq
            have hdata : ('v' :: 'v' :: t2).dropWhile (fun c => c == 'v') =
                'v' :: t2 := congrArg String.data heq
            have hhead : (('v' :: 'v' :: t2).dropWhile
                (fun c => c == 'v')).head? = some 'v' := by
              rw [hdata]; rfl
            have := head_dropWhile_false ('v' :: 'v' :: t2) 'v' hhead
            simp at this
          · intro hpre
            exfalso
            simp [List.isPrefixOf] at hpre
        · have hdw : ('v' :: c2 :: t2).dropWhile (fun c => c == 'v') =
              c2 :: t2 := by
            rw [List.dropWhile_cons_of_pos (by simp)]
            rw [List.dropWhile_cons_of_neg (by simp [hc2])]
          constructor
          · intro _
            simp [List.isPrefixOf, Ne.symm hc2]
          · intro _
            rw [deriveVersion_mk, stripSingle_cons_v, hdw]
    · have hdw : (c :: t).dropWhile (fun c => c == 'v') = c :: t := by
        rw [List.dropWhile_cons_of_neg (by simp [hc])]
      constructor
      · intro _
        simp [List.isPrefixOf, Ne.symm hc]
      · intro _
        rw [deriveVersion_mk, stripSingle_cons_ne c t hc, hdw]

/-! ### C5: description/notes truncation -/

/-- The emitted text when the collapsed input is over the limit. -/
theorem notes_text_of_long (s : String)
    (h : 300 < pyLen (collapseNewlines s)) :
    notes_text s = pyTake (collapseNewlines s) 297 ++ "..." := by
  simp only [notes_text]
  rw [if_pos h]

/-- The emitted text when the collapsed input is at or under the limit. -/
theorem notes_text_of_short (s : String)
    (h : ¬ 300 < pyLen (collapseNewlines s)) :
    notes_text s = collapseNewlines s := by
  simp only [notes_text]
  rw [if_neg h]

/-- C5. The truncated text is computed from the input with line breaks
collapsed; when the collapsed length exceeds the variant-A limit of 300 the
result has exactly 300 characters, ends with the `...` suffix, and keeps the
first 297 collapsed characters; at or under the limit the collapsed text is
returned unmodified. -/
theorem notes_text_truncation (s : String) :
    (300 < pyLen (collapseNewlines s) →
      pyLen (notes_text s) = 300 ∧
      pyEndsWith (notes_text s) "..." = true ∧
      (notes_text s).data.take 297 = (collapseNewlines s).data.take 297) ∧
    (pyLen (collapseNewlines s) ≤ 300 → notes_text s = collapseNewlines s) := by
  constructor
  · intro h
    have hres := notes_text_of_long s h
    have hdata : (notes_text s).data =
        (collapseNewlines s).data.take 297 ++ "...".data := by
      rw [hres, String.data_append]
      rfl
    have hlen297 : ((collapseNewlines s).data.take 297).length = 297 := by
      rw [List.length_take]
      exact Nat.min_eq_left (Nat.le_of_lt (Nat.lt_of_le_of_lt (by norm_num) h))
    refine ⟨?_, ?_, ?_⟩
    · show (notes_text s).data.length = 300
      rw [hdata, List.length_append, hlen297]
      rfl
    · show ("...".data).isSuffixOf (notes_text s).data = true
      exact List.isSuffixOf_iff_suffix.mpr ⟨(collapseNewlines s).data.take 297,
        hdata.symm⟩
    · rw [hdata]
      exact List.take_left' hlen297
  · intro h
    exact notes_text_of_short s (Nat.not_lt.mpr h)

set_option maxRecDepth 40000 in
/-- Witness for C5: a 301-character body is truncated to exactly 300
characters ending in `...`, and a short body with a line break is only
collapsed. -/
theorem notes_text_truncation_witness :
    pyLen (notes_text (String.mk (List.replicate 301 'a'))) = 300 ∧
    pyEndsWith (notes_text (String.mk (List.replicate 301 'a'))) "..." = true ∧
    notes_text "line1\nline2" = collapseNewlines "line1\nline2" := by
  have h1 := (notes_text_truncation (String.mk (List.replicate 301 'a'))).1
    (by decide)
  have h2 := (notes_text_truncation "line1\nline2").2 (by decide)
  exact ⟨h1.1, h1.2.1, h2⟩

/-! ### C4: release notes -/

set_option maxRecDepth 40000 in
/-- C4 counterexample: a 301-character body (no line breaks) is under the
claimed 1000-character limit, so the claim predicts it is emitted verbatim;
the code truncates it at 300 characters (297 kept plus `...`). -/
theorem release_notes_limit_counterexample :
    specReleaseNotes1000 (String.mk (List.replicate 301 'a')) =
      String.mk (List.replicate 301 'a') ∧
    (mkPackage "ANAWBPPS" (fun _ => none) "20240101"
        (String.mk (List.replicate 301 'a')) ⟨"a.zip", "u"⟩).releaseNotes =
      some (" " ++ (String.mk (List.replicate 297 'a') ++ "...") ++ " ") ∧
    (mkPackage "ANAWBPPS" (fun _ => none) "20240101"
        (String.mk (List.replicate 301 'a')) ⟨"a.zip", "u"⟩).releaseNotes ≠
      some (" " ++ specReleaseNotes1000 (String.mk (List.replicate 301 'a'))
        ++ " ") := by
  decide

/-- C4 (amended). For a release with a non-empty body, the emitted
release-notes paragraph is the body with line breaks collapsed, truncated at
300 characters (297 kept plus a `...` suffix) when longer, wrapped in single
spaces; for an empty body the paragraph is omitted from every package entry
of that release. -/
theorem mkPackage_release_notes (n : String) (d : String → Option String)
    (rd : String) (a : Asset) (body : String) :
    (body ≠ "" →
      (mkPackage n d rd body a).releaseNotes =
        some (" " ++ notes_text body ++ " ")) ∧
    (body = "" → (mkPackage n d rd body a).releaseNotes = none) ∧
    (300 < pyLen (collapseNewlines body) →
      notes_text body = pyTake (collapseNewlines body) 297 ++ "...") := by
  refine ⟨?_, ?_, fun h => notes_text_of_long body h⟩
  · intro hne
    have hEmpty : body.data.isEmpty = false := by
      cases hb : body.data with
      | nil =>
        exfalso
        apply hne
        obtain ⟨l⟩ := body
        simp at hb
        rw [hb]
      | cons c t => rfl
    show (if body.data.isEmpty then none
          else some (" " ++ notes_text body ++ " ")) =
      some (" " ++ notes_text body ++ " ")
    rw [hEmpty]
    simp
  · intro h
    subst h
    rfl

/-- Witness for C4: a body with a line break is emitted collapsed and
space-wrapped; the empty body yields no release-notes paragraph. -/
theorem mkPackage_release_notes_witness :
    (mkPackage "ANAWBPPS" (fun _ => none) "20240101" "x\ny"
        ⟨"a.zip", "u"⟩).releaseNotes = some (" " ++ notes_text "x\ny" ++ " ") ∧
    (mkPackage "ANAWBPPS" (fun _ => none) "20240101" ""
        ⟨"a.zip", "u"⟩).releaseNotes = none := by
  refine ⟨?_, ?_⟩
  · exact (mkPackage_release_notes "ANAWBPPS" (fun _ => none) "20240101"
      ⟨"a.zip", "u"⟩ "x\ny").1 (by decide)
  · exact (mkPackage_release_notes "ANAWBPPS" (fun _ => none) "20240101"
      ⟨"a.zip", "u"⟩ "").2.1 rfl

/-! ### C6: release date derivation and fatal parse errors -/

/-- Every package in the block a release contributes is dated with that
same release's parsed, reformatted publish timestamp. -/
theorem releasePackages_date (n : String) (d : String → Option String)
    (r : Release) (ymd : Nat × Nat × Nat)
    (hiso : pyFromIso (pyReplace r.published_at "Z" "+00:00") = some ymd) :
    ∀ p ∈ releasePackages n d r, p.releaseDate = fmtYmd ymd := by
  intro p hp
  have hr : releasePackages n d r =
      processAssets n d (fmtYmd ymd) r.body r.assets := by
    unfold releasePackages
    rw [hiso]
  rw [hr, processAssets_eq_filter_map] at hp
  obtain ⟨a, _, rfl⟩ := List.mem_map.mp hp
  rfl

/-- On success, the release loop's output is exactly the concatenation, in
order, of the per-release package blocks of the retained releases: each
entry belongs to its own release's block. -/
theorem processReleases_ok_eq_flatMap (n : String)
    (d : String → Option String) :
    ∀ (rs : List Release) (ps : List Package),
      processReleases n d rs = .ok ps →
      ps = (rs.filter (fun r => !r.draft && !r.prerelease)).flatMap
        (releasePackages n d) := by
  intro rs
  induction rs with
  | nil =>
    intro ps h
    cases h
    rfl
  | cons r0 rest ih =>
    intro ps h
    by_cases hd : (r0.draft || r0.prerelease) = true
    · rw [processReleases, if_pos hd] at h
      have hf : (!r0.draft && !r0.prerelease) = false := by
        cases h1 : r0.draft <;> cases h2 : r0.prerelease <;> simp_all
      have hfilter : ((r0 :: rest).filter
            (fun r => !r.draft && !r.prerelease)) =
          rest.filter (fun r => !r.draft && !r.prerelease) := by
        simp [List.filter_cons, hf]
      rw [hfilter]
      exact ih ps h
    · have hf : (!r0.draft && !r0.prerelease) = true := by
        cases h1 : r0.draft <;> cases h2 : r0.prerelease <;> simp_all
      rw [processReleases, if_neg hd] at h
      cases hiso : pyFromIso (pyReplace r0.published_at "Z" "+00:00") with
      | none => rw [hiso] at h; cases h
      | some ymd =>
        rw [hiso] at h
        cases hrec : processReleases n d rest with
        | error e => rw [hrec] at h; cases h
        | ok ps' =>
          rw [hrec] at h
          cases h
          have hfilter : ((r0 :: rest).filter
                (fun r => !r.draft && !r.prerelease)) =
              r0 :: rest.filter (fun r => !r.draft && !r.prerelease) := by
            simp [List.filter_cons, hf]
          rw [hfilter]
          show processAssets n d (fmtYmd ymd) r0.body r0.assets ++ ps' =
            releasePackages n d r0 ++
              (rest.filter (fun r => !r.draft && !r.prerelease)).flatMap
                (releasePackages n d)
          have hr0 : releasePackages n d r0 =
              processAssets n d (fmtYmd ymd) r0.body r0.assets := by
            unfold releasePackages
            rw [hiso]
          rw [hr0, ih ps' hrec]

/-- If any retained release's publish timestamp fails to parse, the release
loop raises (returns an error). -/
theorem processReleases_error_of_bad_timestamp (n : String)
    (d : String → Option String) :
    ∀ (rs : List Release) (r : Release), r ∈ rs →
      r.draft = false → r.prerelease = false →
      pyFromIso (pyReplace r.published_at "Z" "+00:00") = none →
      ∃ e, processReleases n d rs = .error e := by
  intro rs
  induction rs with
  | nil => intro r hr; simp at hr
  | cons r0 rest ih =>
    intro r hr hrd hrp hiso
    rcases List.mem_cons.mp hr with rfl | hmem
    · have hd : (r.draft || r.prerelease) = false := by
        rw [hrd, hrp]; rfl
      refine ⟨"Invalid isoformat string: " ++ r.published_at, ?_⟩
      rw [processReleases, if_neg (by simp [hd]), hiso]
    · obtain ⟨e, herr⟩ := ih r hmem hrd hrp hiso
      by_cases hd0 : (r0.draft || r0.prerelease) = true
      · exact ⟨e, by rw [processReleases, if_pos hd0]; exact herr⟩
      · cases hiso0 : pyFromIso (pyReplace r0.published_at "Z" "+00:00") with
        | none =>
          exact ⟨"Invalid isoformat string: " ++ r0.published_at,
            by rw [processReleases, if_neg hd0, hiso0]⟩
        | some ymd =>
          exact ⟨e, by rw [processReleases, if_neg hd0, hiso0, herr]⟩

/-- C6. On success the document's package list is exactly the ordered
concatenation of the retained releases' per-release blocks, and every entry
in a release's block is dated with THAT release's publish timestamp
reformatted as `YYYYMMDD`; if any retained release's timestamp cannot be
parsed, the raised error propagates — the run produces no document at all
(no entry for any release is emitted and no output file is written). -/
theorem generate_xri_release_date (n : String) (d : String → Option String)
    (rs : List Release) :
    (∀ doc, generate_xri n d rs = .ok doc →
      doc.packages = (rs.filter (fun r => !r.draft && !r.prerelease)).flatMap
        (releasePackages n d)) ∧
    (∀ (r : Release) (ymd : Nat × Nat × Nat),
      pyFromIso (pyReplace r.published_at "Z" "+00:00") = some ymd →
      ∀ p ∈ releasePackages n d r, p.releaseDate = fmtYmd ymd) ∧
    (∀ r ∈ rs, r.draft = false → r.prerelease = false →
      pyFromIso (pyReplace r.published_at "Z" "+00:00") = none →
      writtenFile n d rs = none) := by
  refine ⟨?_, ?_, ?_⟩
  · intro doc hdoc
    cases hpr : processReleases n d rs with
    | error e =>
      rw [generate_xri, hpr] at hdoc
      cases hdoc
    | ok ps =>
      rw [generate_xri, hpr] at hdoc
      cases hdoc
      exact processReleases_ok_eq_flatMap n d rs ps hpr
  · exact fun r ymd hiso => releasePackages_date n d r ymd hiso
  · intro r hr hrd hrp hiso
    obtain ⟨e, herr⟩ :=
      processReleases_error_of_bad_timestamp n d rs r hr hrd hrp hiso
    rw [writtenFile, generate_xri, herr]
    rfl

/-- Witness for C6 at concrete inputs: a retained release published
`2024-01-02T03:04:05Z` contributes exactly its own entry block, whose entry
is dated `fmtYmd (2024, 1, 2)` (its own timestamp, reformatted); and a
retained release with an unparseable timestamp makes the run write no
file. -/
theorem generate_xri_release_date_witness :
    (mkDoc "ANAWBPPS"
        [mkPackage "ANAWBPPS" (fun _ => none) "20240102" ""
          ⟨"Workflow-v1.0.0.zip", "u"⟩]).packages =
      (([⟨"v1.0.0", false, false, "2024-01-02T03:04:05Z", "",
           [⟨"Workflow-v1.0.0.zip", "u"⟩]⟩] : List Release).filter
          (fun r => !r.draft && !r.prerelease)).flatMap
        (releasePackages "ANAWBPPS" (fun _ => none)) ∧
    (mkPackage "ANAWBPPS" (fun _ => none) "20240102" ""
        ⟨"Workflow-v1.0.0.zip", "u"⟩).releaseDate = fmtYmd (2024, 1, 2) ∧
    writtenFile "ANAWBPPS" (fun _ => none)
      [⟨"v1.0.0", false, false, "not-a-timestamp", "", []⟩] = none := by
  refine ⟨?_, ?_, ?_⟩
  · exact (generate_xri_release_date "ANAWBPPS" (fun _ => none)
        [⟨"v1.0.0", false, false, "2024-01-02T03:04:05Z", "",
          [⟨"Workflow-v1.0.0.zip", "u"⟩]⟩]).1
      (mkDoc "ANAWBPPS" [mkPackage "ANAWBPPS" (fun _ => none) "20240102" ""
        ⟨"Workflow-v1.0.0.zip", "u"⟩]) rfl
  · exact (generate_xri_release_date "ANAWBPPS" (fun _ => none)
        [⟨"v1.0.0", false, false, "2024-01-02T03:04:05Z", "",
          [⟨"Workflow-v1.0.0.zip", "u"⟩]⟩]).2.1
      ⟨"v1.0.0", false, false, "2024-01-02T03:04:05Z", "",
        [⟨"Workflow-v1.0.0.zip", "u"⟩]⟩ (2024, 1, 2) (by decide)
      (mkPackage "ANAWBPPS" (fun _ => none) "20240102" ""
        ⟨"Workflow-v1.0.0.zip", "u"⟩) (by decide)
  · exact (generate_xri_release_date "ANAWBPPS" (fun _ => none)
        [⟨"v1.0.0", false, false, "not-a-timestamp", "", []⟩]).2.2
      ⟨"v1.0.0", false, false, "not-a-timestamp", "", []⟩
      (List.mem_singleton.mpr rfl) rfl rfl (by decide)

/-! ### C7: digest download failures are soft -/

/-- A package entry depends on the digest outcome only through its `sha1`
attribute. -/
theorem eraseSha1_mkPackage (n : String) (d1 d2 : String → Option String)
    (rd b : String) (a : Asset) :
    eraseSha1 (mkPackage n d1 rd b a) = eraseSha1 (mkPackage n d2 rd b a) :=
  rfl

/-- The asset loop depends on the digest oracle only through `sha1`s. -/
theorem processAssets_eraseSha1 (n : String) (d1 d2 : String → Option String)
    (rd b : String) (l : List Asset) :
    (processAssets n d1 rd b l).map eraseSha1 =
      (processAssets n d2 rd b l).map eraseSha1 := by
  induction l with
  | nil => rfl
  | cons a rest ih =>
    by_cases h : pyEndsWith a.name ".zip" = true
    · rw [processAssets, processAssets, if_pos h, if_pos h]
      simp only [List.map_cons]
      rw [ih, eraseSha1_mkPackage n d1 d2 rd b a]
    · rw [processAssets, processAssets, if_neg h, if_neg h]
      exact ih

/-- The release loop depends on the digest oracle only through `sha1`s: in
particular it raises on one oracle iff it raises (identically) on any
other. -/
theorem processReleases_eraseSha1 (n : String)
    (d1 d2 : String → Option String) (rs : List Release) :
    Except.map (List.map eraseSha1) (processReleases n d1 rs) =
      Except.map (List.map eraseSha1) (processReleases n d2 rs) := by
  induction rs with
  | nil => rfl
  | cons r0 rest ih =>
    by_cases hd : (r0.draft || r0.prerelease) = true
    · rw [processReleases, processReleases, if_pos hd, if_pos hd]
      exact ih
    · rw [processReleases, processReleases, if_neg hd, if_neg hd]
      cases hiso : pyFromIso (pyReplace r0.published_at "Z" "+00:00") with
      | none => rfl
      | some ymd =>
        cases h1 : processReleases n d1 rest with
        | error e1 =>
          cases h2 : processReleases n d2 rest with
          | error e2 =>
            rw [h1, h2] at ih
            simp only [Except.map] at ih
            cases ih
            rfl
          | ok ps2 =>
            rw [h1, h2] at ih
            simp only [Except.map] at ih
            exact Except.noConfusion ih
        | ok ps1 =>
          cases h2 : processReleases n d2 rest with
          | error e2 =>
            rw [h1, h2] at ih
            simp only [Except.map] at ih
            exact Except.noConfusion ih
          | ok ps2 =>
            rw [h1, h2] at ih
            simp only [Except.map, Except.ok.injEq] at ih
            show Except.ok
                ((processAssets n d1 (fmtYmd ymd) r0.body r0.assets ++
                  ps1).map eraseSha1) =
              Except.ok
                ((processAssets n d2 (fmtYmd ymd) r0.body r0.assets ++
                  ps2).map eraseSha1)
            rw [List.map_append, List.map_append, ih,
              processAssets_eraseSha1 n d1 d2 (fmtYmd ymd) r0.body r0.assets]

/-- C7. A digest download failure never aborts the run and never drops an
entry: up to `sha1` attributes the generated document is the same under any
two digest oracles (same entries, same order, and it aborts — with the same
error — only when it would abort under the other oracle); and when the
oracle fails for an asset, that asset's entry is still built, with its
filename, merely without `sha1`. -/
theorem digest_failure_soft (n : String) (d1 d2 : String → Option String)
    (rs : List Release) (rd b : String) (a : Asset) :
    Except.map eraseDoc (generate_xri n d1 rs) =
      Except.map eraseDoc (generate_xri n d2 rs) ∧
    (generate_xri n d1 rs).isOk = (generate_xri n d2 rs).isOk ∧
    (d1 a.browser_download_url = none →
      (mkPackage n d1 rd b a).sha1 = none ∧
      (mkPackage n d1 rd b a).fileName = a.name) := by
  have herase := processReleases_eraseSha1 n d1 d2 rs
  refine ⟨?_, ?_, ?_⟩
  · cases h1 : processReleases n d1 rs with
    | error e1 =>
      cases h2 : processReleases n d2 rs with
      | error e2 =>
        rw [h1, h2] at herase
        simp only [Except.map] at herase
        cases herase
        rw [generate_xri, generate_xri, h1, h2]
      | ok ps2 =>
        rw [h1, h2] at herase
        simp only [Except.map] at herase
        exact Except.noConfusion herase
    | ok ps1 =>
      cases h2 : processReleases n d2 rs with
      | error e2 =>
        rw [h1, h2] at herase
        simp only [Except.map] at herase
        exact Except.noConfusion herase
      | ok ps2 =>
        rw [h1, h2] at herase
        simp only [Except.map, Except.ok.injEq] at herase
        rw [generate_xri, generate_xri, h1, h2]
        simp only [Except.map, Except.ok.injEq]
        show mkDoc n (ps1.map eraseSha1) = mkDoc n (ps2.map eraseSha1)
        rw [herase]
  · cases h1 : processReleases n d1 rs with
    | error e1 =>
      cases h2 : processReleases n d2 rs with
      | error e2 => rw [generate_xri, generate_xri, h1, h2]; rfl
      | ok ps2 =>
        rw [h1, h2] at herase
        simp only [Except.map] at herase
        exact Except.noConfusion herase
    | ok ps1 =>
      cases h2 : processReleases n d2 rs with
      | error e2 =>
        rw [h1, h2] at herase
        simp only [Except.map] at herase
        exact Except.noConfusion herase
      | ok ps2 => rw [generate_xri, generate_xri, h1, h2]; rfl
  · intro hfail
    constructor
    · show (match d1 a.browser_download_url with
            | some h => if h.data.isEmpty then none else some h
            | none => none) = none
      rw [hfail]
    · rfl

/-- Witness for C7: with an oracle that fails on every URL, the entry for a
zip asset is still built, keeps its filename, and just lacks `sha1`. -/
theorem digest_failure_soft_witness :
    (mkPackage "ANAWBPPS" (fun _ => none) "20240101" ""
        ⟨"Workflow-v1.0.0.zip", "u"⟩).sha1 = none ∧
    (mkPackage "ANAWBPPS" (fun _ => none) "20240101" ""
        ⟨"Workflow-v1.0.0.zip", "u"⟩).fileName = "Workflow-v1.0.0.zip" :=
  (digest_failure_soft "ANAWBPPS" (fun _ => none)
      (fun _ => some "da39a3ee5e6b4b0d3255bfef95601890afd80709") [] "20240101"
      "" ⟨"Workflow-v1.0.0.zip", "u"⟩).2.2 rfl

/-! ### C9: determinism -/

/-- C9. The generator is deterministic: with the release list and the digest
outcomes fixed, any two runs produce the same document (the file content is
a pure function of the document tree, so the written bytes coincide as
well). -/
theorem generate_xri_deterministic (n : String)
    (d : String → Option String) (rs : List Release)
    (o1 o2 : Except String XriDoc)
    (h1 : generate_xri n d rs = o1) (h2 : generate_xri n d rs = o2) :
    o1 = o2 :=
  h1 ▸ h2

/-- Witness for C9 at a concrete input: two runs on the empty release list
yield the same result. -/
theorem generate_xri_deterministic_witness :
    (Except.ok (mkDoc "ANAWBPPS" []) : Except String XriDoc) =
      Except.ok (mkDoc "ANAWBPPS" []) :=
  generate_xri_deterministic "ANAWBPPS" (fun _ => none) []
    (Except.ok (mkDoc "ANAWBPPS" [])) (Except.ok (mkDoc "ANAWBPPS" []))
    rfl rfl

/-! ### C10: the fixed header on empty output -/

/-- C10 counterexample: a retained release with no `.zip` assets (so the run
would yield zero package entries) but an unparseable publish timestamp makes
the run abort — no document is written at all, rather than the fixed header
with zero packages. -/
theorem empty_header_counterexample :
    writtenFile "ANAWBPPS" (fun _ => none)
        [⟨"v2.0.0", false, false, "still-not-a-date", "", []⟩] = none ∧
    ([⟨"v2.0.0", false, false, "still-not-a-date", "", []⟩] :
        List Release).map Release.assets = [[]] := by
  decide

/-- C10 (amended). For every release list yielding zero package entries —
the empty list, lists of drafts/prereleases only, and lists whose retained
releases have no `.zip` asset — PROVIDED every retained release's publish
timestamp parses, the generator still produces the complete fixed-header
document: an `xri` root with version `1.0`, an (empty) `script` element, the
repository description paragraph, and a `platform` element with os `all`,
arch `noarch`, version `1.8.0:1.8.99` holding zero package children. -/
theorem empty_header_document (n : String) (d : String → Option String)
    (rs : List Release)
    (hparse : ∀ r ∈ rs, r.draft = false → r.prerelease = false →
      (pyFromIso (pyReplace r.published_at "Z" "+00:00")).isSome = true)
    (hzip : ∀ r ∈ rs, r.draft = false → r.prerelease = false →
      r.assets.filter (fun a => pyEndsWith a.name ".zip") = []) :
    generate_xri n d rs = Except.ok
      { xriVersion := "1.0"
        hasScript := true
        repoDescription :=
          " " ++ n ++
            " — Automated Narrowband Astrophotography Workflow Based on PixInsight Processing Scripts. "
        platformOs := "all"
        platformArch := "noarch"
        platformVersion := "1.8.0:1.8.99"
        packages := [] } := by
  have hok : processReleases n d rs = Except.ok [] := by
    induction rs with
    | nil => rfl
    | cons r0 rest ih =>
      have ihrest : processReleases n d rest = Except.ok [] :=
        ih (fun r hr => hparse r (List.mem_cons_of_mem r0 hr))
          (fun r hr => hzip r (List.mem_cons_of_mem r0 hr))
      by_cases hd : (r0.draft || r0.prerelease) = true
      · rw [processReleases, if_pos hd]
        exact ihrest
      · have hd0 : r0.draft = false ∧ r0.prerelease = false := by
          cases h1 : r0.draft <;> cases h2 : r0.prerelease <;> simp_all
        have hsome := hparse r0 (List.mem_cons_self r0 rest) hd0.1 hd0.2
        cases hiso : pyFromIso (pyReplace r0.published_at "Z" "+00:00") with
        | none => rw [hiso] at hsome; cases hsome
        | some ymd =>
          rw [processReleases, if_neg hd, hiso, ihrest]
          show Except.ok
              (processAssets n d (fmtYmd ymd) r0.body r0.assets ++ []) =
            Except.ok []
          rw [processAssets_eq_filter_map,
            hzip r0 (List.mem_cons_self r0 rest) hd0.1 hd0.2]
          rfl
  rw [generate_xri, hok]
  rfl

/-- Witness for C10: a list holding one draft release (with a `.zip` asset)
yields the fixed header with zero packages. -/
theorem empty_header_document_witness :
    generate_xri "ANAWBPPS" (fun _ => none)
        [⟨"v1.0.0", true, false, "2024-01-01T00:00:00Z", "",
          [⟨"Workflow-v1.0.0.zip", "u"⟩]⟩] = Except.ok
      { xriVersion := "1.0"
        hasScript := true
        repoDescription :=
          " " ++ "ANAWBPPS" ++
            " — Automated Narrowband Astrophotography Workflow Based on PixInsight Processing Scripts. "
        platformOs := "all"
        platformArch := "noarch"
        platformVersion := "1.8.0:1.8.99"
        packages := [] } := by
  apply empty_header_document
  · intro r hr h1 h2
    rw [List.mem_singleton] at hr
    subst hr
    cases h1
  · intro r hr h1 h2
    rw [List.mem_singleton] at hr
    subst hr
    cases h1

/-! ### C8: the end-to-end single-release example -/

/-- C8 counterexample: on the end-to-end input the document holds exactly
one package entry with the right filename, but the entry records NO version
at all — the derived version `1.0.0` appears in no attribute or text field
of the variant-A entry (it is only a substring of the filename). -/
theorem end_to_end_counterexample :
    writtenFile "ANAWBPPS" (fun _ => none) c8Releases =
      some (mkDoc "ANAWBPPS" [c8Package]) ∧
    deriveVersion "v1.0.0" = "1.0.0" ∧
    ([c8Package.fileName, c8Package.type, c8Package.releaseDate,
        c8Package.title, c8Package.mainDescription,
        c8Package.downloadLink].contains "1.0.0") = false ∧
    c8Package.sha1 = none ∧ c8Package.releaseNotes = none := by
  decide

/-- C8 (amended). On the end-to-end input the output document contains
exactly one package entry; its `fileName` is `Workflow-v1.0.0.zip`; and the
version string the generator derives from the tag is `1.0.0`, though the
variant-A entry does not embed it. -/
theorem end_to_end_single_release :
    writtenFile "ANAWBPPS" (fun _ => none) c8Releases =
      some (mkDoc "ANAWBPPS" [c8Package]) ∧
    (mkDoc "ANAWBPPS" [c8Package]).packages.length = 1 ∧
    c8Package.fileName = "Workflow-v1.0.0.zip" ∧
    deriveVersion "v1.0.0" = "1.0.0" := by
  decide

/-- Witness for C3 (amended) at concrete tags: on `v1.2.0`, which does not
start with `vv`, the code's derivation coincides with a single-`v` strip;
and `v` alone derives the empty string. -/
theorem deriveVersion_lstrip_all_witness :
    deriveVersion "v1.2.0" = stripSingleLeadingV "v1.2.0" ∧
      deriveVersion "v" = "" :=
  ⟨(deriveVersion_lstrip_all "v1.2.0").1.mpr (by decide),
    (deriveVersion_lstrip_all "v").2.2.2⟩
